import Mathlib

/-!
Shallow embedding of `ibkr_tv_bot.py`: the configuration store, the
Telegram configuration dialogue, the webhook dispatcher and the buy/sell
decision paths.  Python floats are modelled as exact rationals (`ℚ`);
Python's `ZeroDivisionError` on float division by zero is modelled
explicitly with `Except`, and Python's `int()` truncation toward zero is
modelled by `pyint`.
-/

deriving instance DecidableEq for Except

namespace IbkrBot

/-- One entry of the `configs` dict: `{'order_size': …, 'min_profit': …}`. -/
structure TradingConfig where
  order_size : ℚ
  min_profit : ℚ
deriving DecidableEq, Repr

/-- One element of `ib.accountValues()`: fields `tag`, `currency`, `value`
(the Python `value` is a string parsed with `float`; we model the parsed
number). -/
structure AccountValue where
  tag : String
  currency : String
  value : ℚ
deriving DecidableEq, Repr

/-- One element of `ib.positions()`: `p.contract.symbol`, `p.position`,
`p.averageCost`, `p.marketPrice`. -/
structure Position where
  symbol : String
  position : ℚ
  averageCost : ℚ
  marketPrice : ℚ
deriving DecidableEq, Repr

/-- The market-data ticker returned by `ib.reqMktData`: fields `last`,
`bid`, `ask`. -/
structure Quote where
  last : ℚ
  bid : ℚ
  ask : ℚ
deriving DecidableEq, Repr

/-- An `ib_insync.LimitOrder(action, totalQuantity, lmtPrice)` as submitted
through `ib.placeOrder`. -/
structure LimitOrder where
  action : String
  totalQuantity : ℚ
  lmtPrice : ℚ
deriving DecidableEq, Repr

/-- The broker-reported state consulted by one decision: the account
values, the open positions, and the quote `ib.reqMktData` returns for each
symbol. -/
structure BrokerState where
  accountValues : List AccountValue
  positions : List Position
  quote : String → Quote

/-- Python `str.upper()`, modelled characterwise on the string's data
(for the ASCII tickers and actions involved this agrees with Python). -/
def pyUpper (s : String) : String :=
  ⟨s.data.map Char.toUpper⟩

/-- Python float division `a / b`: raises `ZeroDivisionError` when `b = 0`. -/
def pydiv (a b : ℚ) : Except Unit ℚ :=
  if b = 0 then .error () else .ok (a / b)

/-- Python `int()` on a float: truncation toward zero. -/
def pyint (q : ℚ) : ℤ :=
  if 0 ≤ q then ⌊q⌋ else ⌈q⌉

/-- `configs.get(ticker)` on the in-memory store (line 38), modelled as an
association list keyed by symbol. -/
def getConfig (configs : List (String × TradingConfig)) (ticker : String) :
    Option TradingConfig :=
  configs.lookup ticker

/-- Lines 153-156: `next((float(v.value) for v in account_values if
v.tag == 'AvailableFunds' and v.currency == 'USD'), 0.0)`. -/
def availableFunds (accountValues : List AccountValue) : ℚ :=
  match accountValues.find? (fun v => v.tag == "AvailableFunds" && v.currency == "USD") with
  | some v => v.value
  | none => 0

/-- Line 172: `ticker_data.last if ticker_data.last > 0 else
(ticker_data.ask + ticker_data.bid) / 2`. -/
def buyPrice (q : Quote) : ℚ :=
  if q.last > 0 then q.last else (q.ask + q.bid) / 2

/-- `handle_buy` (lines 142-181).  Returns `Except.error ()` when the
Python code raises `ZeroDivisionError` (division by a zero price), and
otherwise the order placed, if any. -/
def handle_buy (configs : List (String × TradingConfig)) (st : BrokerState)
    (ticker : String) : Except Unit (Option LimitOrder) :=
  match getConfig configs ticker with
  | none => .ok none
  | some cfg =>
    let available := availableFunds st.accountValues
    if available < cfg.order_size then .ok none
    else
      let price := buyPrice (st.quote ticker)
      match pydiv cfg.order_size price with
      | .error e => .error e
      | .ok r =>
        let qty := pyint r
        if qty ≤ 0 then .ok none
        else .ok (some ⟨"BUY", (qty : ℚ), price⟩)

/-- Lines 195-198: `next((p for p in positions if
p.contract.symbol.upper() == ticker and p.position > 0), None)`. -/
def findPosition (positions : List Position) (ticker : String) : Option Position :=
  positions.find? (fun p => pyUpper p.symbol == ticker && decide (p.position > 0))

/-- `handle_sell` (lines 184-224).  Returns `Except.error ()` when the
Python code raises `ZeroDivisionError` (zero invested basis), and
otherwise the order placed, if any. -/
def handle_sell (configs : List (String × TradingConfig)) (st : BrokerState)
    (ticker : String) : Except Unit (Option LimitOrder) :=
  match getConfig configs ticker with
  | none => .ok none
  | some cfg =>
    match findPosition st.positions ticker with
    | none => .ok none
    | some position =>
      let market_price := position.marketPrice
      let avg_cost := position.averageCost
      let pnl_value := (market_price - avg_cost) * position.position
      let invested := avg_cost * position.position
      match pydiv pnl_value invested with
      | .error e => .error e
      | .ok r =>
        let pnl_pct := r * 100
        if pnl_pct < cfg.min_profit then .ok none
        else .ok (some ⟨"SELL", position.position, market_price⟩)

/-- The `/webhook` Flask view (lines 121-139): uppercases both payload
fields, routes `BUY`/`SELL`, logs anything else, and returns the fixed
`{'status': 'processed'}` acknowledgment.  The result carries the order
placed (if any) alongside the acknowledgment string; `Except.error ()`
models an exception escaping the view. -/
def webhook (configs : List (String × TradingConfig)) (st : BrokerState)
    (rawTicker rawAction : String) : Except Unit (Option LimitOrder × String) :=
  let ticker := pyUpper rawTicker
  let action := pyUpper rawAction
  if action == "BUY" then
    (handle_buy configs st ticker).map (fun o => (o, "processed"))
  else if action == "SELL" then
    (handle_sell configs st ticker).map (fun o => (o, "processed"))
  else
    .ok (none, "processed")

/-- Telegram conversation states (line 41): `TICKER, ORDER_SIZE, PROFIT_PCT
= range(3)`, plus `ConversationHandler.END`. -/
inductive ConvState
  | TICKER
  | ORDER_SIZE
  | PROFIT_PCT
  | END
deriving DecidableEq, Repr

/-- The `context.user_data` entries the dialogue uses (`'ticker'`,
`'order_size'`); `none` models an absent key. -/
structure UserData where
  ticker : Option String
  order_size : Option ℚ
deriving DecidableEq, Repr

/-- The state visible to the dialogue: the conversation state, the
per-session `user_data`, and the global `configs` store. -/
structure BotState where
  conv : ConvState
  user_data : UserData
  configs : List (String × TradingConfig)
deriving DecidableEq, Repr

/-- A dialogue input: a text message, or the `/cancel` command.  `parsed`
carries the value Python `float(text.strip())` would produce for the
message, `none` when it raises `ValueError`. -/
inductive Event
  | text (msg : String) (parsed : Option ℚ)
  | cancel
deriving DecidableEq, Repr

/-- `configs[ticker] = {...}` (lines 97-100): Python dict assignment on the
store, modelled as an upsert on the association list. -/
def upsert (configs : List (String × TradingConfig)) (ticker : String)
    (cfg : TradingConfig) : List (String × TradingConfig) :=
  (ticker, cfg) :: configs.filter (fun p => p.1 != ticker)

/-- `ticker_received` (lines 61-68): stores the stripped, uppercased ticker
in `user_data` and moves to `ORDER_SIZE`. -/
def ticker_received (msg : String) (ud : UserData) : UserData × ConvState :=
  ({ ud with ticker := some (pyUpper msg.trim) }, .ORDER_SIZE)

/-- `order_size_received` (lines 70-83): when `float()` raises it re-prompts
and stays in `ORDER_SIZE`; otherwise it stores the size and moves to
`PROFIT_PCT`.  Note the code accepts any value `float()` parses. -/
def order_size_received (parsed : Option ℚ) (ud : UserData) :
    UserData × ConvState :=
  match parsed with
  | none => (ud, .ORDER_SIZE)
  | some size => ({ ud with order_size := some size }, .PROFIT_PCT)

/-- `profit_received` (lines 85-109): when `float()` raises it re-prompts
and stays in `PROFIT_PCT`; otherwise it reads ticker and size from
`user_data` (a missing key would raise `KeyError`, modelled as
`Except.error`), writes the completed configuration into `configs`, and
ends the conversation. -/
def profit_received (parsed : Option ℚ) (ud : UserData)
    (configs : List (String × TradingConfig)) :
    Except Unit (UserData × List (String × TradingConfig) × ConvState) :=
  match parsed with
  | none => .ok (ud, configs, .PROFIT_PCT)
  | some percent =>
    match ud.ticker, ud.order_size with
    | some ticker, some size =>
        .ok (ud, upsert configs ticker ⟨size, percent⟩, .END)
    | _, _ => .error ()

/-- One step of the `/set` `ConversationHandler` (lines 249-257): a text
message is routed to the handler of the current conversation state;
`/cancel` (lines 111-116) ends the conversation without touching the
store.  In the `END` state the conversation is over and a message reaches
no handler. -/
def conversationStep (st : BotState) (e : Event) : Except Unit BotState :=
  match e with
  | .cancel => .ok { st with conv := .END }
  | .text msg parsed =>
    match st.conv with
    | .TICKER =>
        let r := ticker_received msg st.user_data
        .ok { st with user_data := r.1, conv := r.2 }
    | .ORDER_SIZE =>
        let r := order_size_received parsed st.user_data
        .ok { st with user_data := r.1, conv := r.2 }
    | .PROFIT_PCT =>
        match profit_received parsed st.user_data st.configs with
        | .error err => .error err
        | .ok r => .ok { st with user_data := r.1, configs := r.2.1, conv := r.2.2 }
    | .END => .ok st

/-- The `/set` command (lines 54-59) starts a session in the `TICKER`
state with the session's `user_data` still empty. -/
def startSession (configs : List (String × TradingConfig)) : BotState :=
  ⟨.TICKER, ⟨none, none⟩, configs⟩

/-- Run a sequence of dialogue inputs from a state. -/
def runConversation (st : BotState) : List Event → Except Unit BotState
  | [] => .ok st
  | e :: es =>
    match conversationStep st e with
    | .error err => .error err
    | .ok st2 => runConversation st2 es


/-! Equation lemmas for the decision paths, shared by the claim theorems
below. -/

lemma handle_buy_no_config (configs : List (String × TradingConfig)) (st : BrokerState)
    (ticker : String) (hc : getConfig configs ticker = none) :
    handle_buy configs st ticker = .ok none := by
  unfold handle_buy; rw [hc]

lemma handle_sell_no_config (configs : List (String × TradingConfig)) (st : BrokerState)
    (ticker : String) (hc : getConfig configs ticker = none) :
    handle_sell configs st ticker = .ok none := by
  unfold handle_sell; rw [hc]

lemma handle_sell_no_position (configs : List (String × TradingConfig)) (st : BrokerState)
    (ticker : String) (cfg : TradingConfig)
    (hc : getConfig configs ticker = some cfg)
    (hp : findPosition st.positions ticker = none) :
    handle_sell configs st ticker = .ok none := by
  unfold handle_sell; rw [hc, hp]

lemma handle_buy_some (configs : List (String × TradingConfig)) (st : BrokerState)
    (ticker : String) (cfg : TradingConfig)
    (hc : getConfig configs ticker = some cfg) :
    handle_buy configs st ticker =
      (if availableFunds st.accountValues < cfg.order_size then .ok none
       else match pydiv cfg.order_size (buyPrice (st.quote ticker)) with
         | .error e => .error e
         | .ok r =>
           if pyint r ≤ 0 then .ok none
           else .ok (some ⟨"BUY", ((pyint r : ℤ) : ℚ), buyPrice (st.quote ticker)⟩)) := by
  unfold handle_buy; rw [hc]

lemma handle_buy_insufficient (configs : List (String × TradingConfig)) (st : BrokerState)
    (ticker : String) (cfg : TradingConfig)
    (hc : getConfig configs ticker = some cfg)
    (hlt : availableFunds st.accountValues < cfg.order_size) :
    handle_buy configs st ticker = .ok none := by
  rw [handle_buy_some configs st ticker cfg hc, if_pos hlt]

lemma handle_buy_enough (configs : List (String × TradingConfig)) (st : BrokerState)
    (ticker : String) (cfg : TradingConfig)
    (hc : getConfig configs ticker = some cfg)
    (hge : ¬ availableFunds st.accountValues < cfg.order_size)
    (hp : buyPrice (st.quote ticker) ≠ 0) :
    handle_buy configs st ticker =
      (if pyint (cfg.order_size / buyPrice (st.quote ticker)) ≤ 0 then .ok none
       else .ok (some ⟨"BUY", ((pyint (cfg.order_size / buyPrice (st.quote ticker))) : ℚ),
                        buyPrice (st.quote ticker)⟩)) := by
  rw [handle_buy_some configs st ticker cfg hc, if_neg hge]
  simp [pydiv, hp]

lemma handle_buy_zero_price (configs : List (String × TradingConfig)) (st : BrokerState)
    (ticker : String) (cfg : TradingConfig)
    (hc : getConfig configs ticker = some cfg)
    (hge : ¬ availableFunds st.accountValues < cfg.order_size)
    (hp : buyPrice (st.quote ticker) = 0) :
    handle_buy configs st ticker = .error () := by
  rw [handle_buy_some configs st ticker cfg hc, if_neg hge]
  simp [pydiv, hp]

lemma handle_sell_some (configs : List (String × TradingConfig)) (st : BrokerState)
    (ticker : String) (cfg : TradingConfig) (p : Position)
    (hc : getConfig configs ticker = some cfg)
    (hp : findPosition st.positions ticker = some p) :
    handle_sell configs st ticker =
      (match pydiv ((p.marketPrice - p.averageCost) * p.position) (p.averageCost * p.position) with
       | .error e => .error e
       | .ok r =>
         if r * 100 < cfg.min_profit then .ok none
         else .ok (some ⟨"SELL", p.position, p.marketPrice⟩)) := by
  unfold handle_sell; rw [hc, hp]

lemma handle_sell_submits (configs : List (String × TradingConfig)) (st : BrokerState)
    (ticker : String) (cfg : TradingConfig) (p : Position)
    (hc : getConfig configs ticker = some cfg)
    (hp : findPosition st.positions ticker = some p)
    (hinv : p.averageCost * p.position ≠ 0)
    (hge : ¬ ((p.marketPrice - p.averageCost) * p.position / (p.averageCost * p.position) * 100
                < cfg.min_profit)) :
    handle_sell configs st ticker = .ok (some ⟨"SELL", p.position, p.marketPrice⟩) := by
  rw [handle_sell_some configs st ticker cfg p hc hp]
  simp [pydiv, hinv, hge]

lemma handle_sell_below (configs : List (String × TradingConfig)) (st : BrokerState)
    (ticker : String) (cfg : TradingConfig) (p : Position)
    (hc : getConfig configs ticker = some cfg)
    (hp : findPosition st.positions ticker = some p)
    (hinv : p.averageCost * p.position ≠ 0)
    (hlt : (p.marketPrice - p.averageCost) * p.position / (p.averageCost * p.position) * 100
             < cfg.min_profit) :
    handle_sell configs st ticker = .ok none := by
  rw [handle_sell_some configs st ticker cfg p hc hp]
  simp [pydiv, hinv, hlt]

lemma handle_sell_zero_invested (configs : List (String × TradingConfig)) (st : BrokerState)
    (ticker : String) (cfg : TradingConfig) (p : Position)
    (hc : getConfig configs ticker = some cfg)
    (hp : findPosition st.positions ticker = some p)
    (hinv : p.averageCost * p.position = 0) :
    handle_sell configs st ticker = .error () := by
  rw [handle_sell_some configs st ticker cfg p hc hp]
  simp [pydiv, hinv]

lemma webhook_buy_route (configs : List (String × TradingConfig)) (st : BrokerState)
    (t a : String) (ha : pyUpper a = "BUY") :
    webhook configs st t a
      = (handle_buy configs st (pyUpper t)).map (fun o => (o, "processed")) := by
  unfold webhook; rw [ha]; simp

lemma webhook_sell_route (configs : List (String × TradingConfig)) (st : BrokerState)
    (t a : String) (ha : pyUpper a = "SELL") :
    webhook configs st t a
      = (handle_sell configs st (pyUpper t)).map (fun o => (o, "processed")) := by
  unfold webhook; rw [ha]; simp

lemma webhook_unknown_route (configs : List (String × TradingConfig)) (st : BrokerState)
    (t a : String) (ha : pyUpper a ≠ "BUY") (hb : pyUpper a ≠ "SELL") :
    webhook configs st t a = .ok (none, "processed") := by
  unfold webhook
  simp [ha, hb]

lemma findPosition_pos (positions : List Position) (ticker : String) (p : Position)
    (hp : findPosition positions ticker = some p) : 0 < p.position := by
  unfold findPosition at hp
  have h := List.find?_some hp
  simp only [Bool.and_eq_true, decide_eq_true_eq] at h
  exact h.2

lemma handle_buy_submits (configs : List (String × TradingConfig)) (st : BrokerState)
    (ticker : String) (cfg : TradingConfig)
    (hc : getConfig configs ticker = some cfg)
    (hge : ¬ availableFunds st.accountValues < cfg.order_size)
    (hp : buyPrice (st.quote ticker) ≠ 0)
    (hq : ¬ pyint (cfg.order_size / buyPrice (st.quote ticker)) ≤ 0) :
    handle_buy configs st ticker =
      .ok (some ⟨"BUY", ((pyint (cfg.order_size / buyPrice (st.quote ticker)) : ℤ) : ℚ),
                 buyPrice (st.quote ticker)⟩) := by
  rw [handle_buy_enough configs st ticker cfg hc hge hp, if_neg hq]

/-! The claims. -/

/-- Claim C1, counterexample: with configured `min_profit = 3` and a position of
10 shares at average cost 100 and market price 103, the unrealized-profit
percentage is exactly 3, equal to the threshold — yet `handle_sell` submits a
sell order, contradicting the claim that a position exactly at threshold does
not trigger a sell. -/
theorem sell_at_threshold_counterexample :
    ((103 : ℚ) - 100) * 10 / ((100 : ℚ) * 10) * 100 = (3 : ℚ) ∧
    handle_sell [("AAPL", ⟨1000, 3⟩)]
        ⟨[], [⟨"AAPL", 10, 100, 103⟩], fun _ => ⟨0, 0, 0⟩⟩ "AAPL"
      = .ok (some ⟨"SELL", 10, 103⟩) := by
  constructor
  · norm_num
  · exact handle_sell_submits _ _ _ ⟨1000, 3⟩ ⟨"AAPL", 10, 100, 103⟩ (by decide) (by decide)
      (by norm_num) (by norm_num)

/-- Claim C1, amended: the comparison gating the sell-path no-op is the strict
`pnl_pct < min_profit`, so a position whose unrealized-profit percentage is
exactly equal to the configured threshold DOES trigger a sell: `handle_sell`
submits a limit sell of the full position at the market price. -/
theorem sell_at_threshold_submits (configs : List (String × TradingConfig))
    (st : BrokerState) (ticker : String) (cfg : TradingConfig) (p : Position)
    (hc : getConfig configs ticker = some cfg)
    (hp : findPosition st.positions ticker = some p)
    (hcost : p.averageCost ≠ 0)
    (heq : (p.marketPrice - p.averageCost) * p.position / (p.averageCost * p.position) * 100
             = cfg.min_profit) :
    handle_sell configs st ticker = .ok (some ⟨"SELL", p.position, p.marketPrice⟩) := by
  have hpos := findPosition_pos st.positions ticker p hp
  exact handle_sell_submits configs st ticker cfg p hc hp
    (mul_ne_zero hcost hpos.ne') (heq ▸ lt_irrefl cfg.min_profit)

/-- Claim C1, witness: a position of 20 shares at cost 50 and market price 51
has pnl_pct = 2, exactly the configured threshold, and the full position is
sold at the market price. -/
theorem sell_at_threshold_submits_witness :
    ((51 : ℚ) - 50) * 20 / ((50 : ℚ) * 20) * 100 = 2 ∧
    handle_sell [("AAPL", ⟨1000, 2⟩)]
        ⟨[], [⟨"aapl", 20, 50, 51⟩], fun _ => ⟨0, 0, 0⟩⟩ "AAPL"
      = .ok (some ⟨"SELL", 20, 51⟩) :=
  ⟨by norm_num,
   sell_at_threshold_submits _ _ _ ⟨1000, 2⟩ ⟨"aapl", 20, 50, 51⟩
     (by simp [getConfig]) (by decide) (by norm_num) (by norm_num)⟩

/-- Claim C2 (the code contradicts it): for a configured symbol with sufficient
funds and a quote with `last = 0`, `bid = 0`, `ask = 0`, the buy path divides
the order size by the zero fallback price; for a position with
`average_cost = 0` the sell path divides by the zero invested basis.  In both
cases a `ZeroDivisionError` escapes the webhook dispatch (`Except.error`)
instead of the fixed `processed` acknowledgment being returned. -/
theorem decision_zero_division_raises :
    webhook [("AAPL", ⟨1000, 2⟩)]
        ⟨[⟨"AvailableFunds", "USD", 5000⟩], [], fun _ => ⟨0, 0, 0⟩⟩ "AAPL" "BUY"
      = .error () ∧
    webhook [("AAPL", ⟨1000, 2⟩)]
        ⟨[], [⟨"AAPL", 10, 0, 5⟩], fun _ => ⟨0, 0, 0⟩⟩ "AAPL" "SELL"
      = .error () := by
  constructor
  · rw [webhook_buy_route _ _ _ _ (by decide)]
    rw [handle_buy_zero_price _ _ _ ⟨1000, 2⟩ (by decide) (by decide) (by norm_num [buyPrice])]
    rfl
  · rw [webhook_sell_route _ _ _ _ (by decide)]
    rw [handle_sell_zero_invested _ _ _ ⟨1000, 2⟩ ⟨"AAPL", 10, 0, 5⟩
          (by decide) (by decide) (by norm_num)]
    rfl

/-- Claim C3: whenever the buy path submits an order, its limit price is the
quote's last-traded price when that is strictly positive, and the bid/ask
midpoint `(bid + ask) / 2` otherwise. -/
theorem buy_price_selection (configs : List (String × TradingConfig)) (st : BrokerState)
    (ticker : String) (cfg : TradingConfig) (o : LimitOrder)
    (hc : getConfig configs ticker = some cfg)
    (ho : handle_buy configs st ticker = .ok (some o)) :
    o.lmtPrice = if (st.quote ticker).last > 0 then (st.quote ticker).last
                 else ((st.quote ticker).bid + (st.quote ticker).ask) / 2 := by
  by_cases hf : availableFunds st.accountValues < cfg.order_size
  · rw [handle_buy_insufficient configs st ticker cfg hc hf] at ho
    simp at ho
  · by_cases hp : buyPrice (st.quote ticker) = 0
    · rw [handle_buy_zero_price configs st ticker cfg hc hf hp] at ho
      simp at ho
    · rw [handle_buy_enough configs st ticker cfg hc hf hp] at ho
      by_cases hq : pyint (cfg.order_size / buyPrice (st.quote ticker)) ≤ 0
      · rw [if_pos hq] at ho; simp at ho
      · rw [if_neg hq] at ho
        simp only [Except.ok.injEq, Option.some.injEq] at ho
        rw [← ho]
        unfold buyPrice
        split
        · rfl
        · ring

/-- Claim C3, witness: with `last = 0, bid = 10, ask = 12` the submitted buy
order's price is `11`; with `last = 15, bid = 10, ask = 12` it is `15`. -/
theorem buy_price_selection_witness :
    (⟨"BUY", 90, 11⟩ : LimitOrder).lmtPrice
      = (if ((⟨0, 10, 12⟩ : Quote)).last > 0 then ((⟨0, 10, 12⟩ : Quote)).last
         else (((⟨0, 10, 12⟩ : Quote)).bid + ((⟨0, 10, 12⟩ : Quote)).ask) / 2) ∧
    (⟨"BUY", 66, 15⟩ : LimitOrder).lmtPrice
      = (if ((⟨15, 10, 12⟩ : Quote)).last > 0 then ((⟨15, 10, 12⟩ : Quote)).last
         else (((⟨15, 10, 12⟩ : Quote)).bid + ((⟨15, 10, 12⟩ : Quote)).ask) / 2) := by
  constructor
  · refine buy_price_selection [("AAPL", ⟨1000, 2⟩)]
      ⟨[⟨"AvailableFunds", "USD", 5000⟩], [], fun _ => ⟨0, 10, 12⟩⟩ "AAPL" ⟨1000, 2⟩ _
      (by simp [getConfig]) ?_
    rw [handle_buy_submits _ _ _ ⟨1000, 2⟩ (by simp [getConfig]) (by norm_num [availableFunds])
          (by norm_num [buyPrice]) (by norm_num [pyint, buyPrice])]
    norm_num [pyint, buyPrice]
  · refine buy_price_selection [("AAPL", ⟨1000, 2⟩)]
      ⟨[⟨"AvailableFunds", "USD", 5000⟩], [], fun _ => ⟨15, 10, 12⟩⟩ "AAPL" ⟨1000, 2⟩ _
      (by simp [getConfig]) ?_
    rw [handle_buy_submits _ _ _ ⟨1000, 2⟩ (by simp [getConfig]) (by norm_num [availableFunds])
          (by norm_num [buyPrice]) (by norm_num [pyint, buyPrice])]
    norm_num [pyint, buyPrice]

/-- Claim C4: for a configured symbol with positive order size and a positive
selected price, any submitted buy order's quantity is exactly
`floor(order_size / price)` (and is then positive), and whenever that floor is
`≤ 0` no order is submitted. -/
theorem buy_quantity_floor (configs : List (String × TradingConfig)) (st : BrokerState)
    (ticker : String) (cfg : TradingConfig)
    (hc : getConfig configs ticker = some cfg)
    (hsz : 0 < cfg.order_size)
    (hpr : 0 < buyPrice (st.quote ticker)) :
    (∀ o : LimitOrder, handle_buy configs st ticker = .ok (some o) →
        o.totalQuantity = ((⌊cfg.order_size / buyPrice (st.quote ticker)⌋ : ℤ) : ℚ) ∧
        0 < ⌊cfg.order_size / buyPrice (st.quote ticker)⌋) ∧
    (⌊cfg.order_size / buyPrice (st.quote ticker)⌋ ≤ 0 →
        handle_buy configs st ticker = .ok none) := by
  have hr : 0 ≤ cfg.order_size / buyPrice (st.quote ticker) :=
    le_of_lt (div_pos hsz hpr)
  have hpy : pyint (cfg.order_size / buyPrice (st.quote ticker))
      = ⌊cfg.order_size / buyPrice (st.quote ticker)⌋ := if_pos hr
  constructor
  · intro o ho
    by_cases hf : availableFunds st.accountValues < cfg.order_size
    · rw [handle_buy_insufficient configs st ticker cfg hc hf] at ho; simp at ho
    · rw [handle_buy_enough configs st ticker cfg hc hf hpr.ne'] at ho
      by_cases hq : pyint (cfg.order_size / buyPrice (st.quote ticker)) ≤ 0
      · rw [if_pos hq] at ho; simp at ho
      · rw [if_neg hq] at ho
        simp only [Except.ok.injEq, Option.some.injEq] at ho
        rw [← ho]
        rw [hpy] at hq ⊢
        exact ⟨rfl, lt_of_not_le hq⟩
  · intro hfl
    by_cases hf : availableFunds st.accountValues < cfg.order_size
    · exact handle_buy_insufficient configs st ticker cfg hc hf
    · rw [handle_buy_enough configs st ticker cfg hc hf hpr.ne', if_pos (hpy ▸ hfl)]

/-- Claim C4, witness: `order_size = 1000` at price `333` yields quantity
`3 = ⌊1000/333⌋ > 0`; `order_size = 100` at price `150` yields
`⌊100/150⌋ = 0`, so no order is submitted. -/
theorem buy_quantity_floor_witness :
    ((⟨"BUY", 3, 333⟩ : LimitOrder).totalQuantity
        = ((⌊(1000 : ℚ) / buyPrice ⟨333, 0, 0⟩⌋ : ℤ) : ℚ) ∧
      0 < ⌊(1000 : ℚ) / buyPrice ⟨333, 0, 0⟩⌋) ∧
    handle_buy [("AAPL", ⟨100, 2⟩)]
        ⟨[⟨"AvailableFunds", "USD", 5000⟩], [], fun _ => ⟨150, 0, 0⟩⟩ "AAPL"
      = .ok none := by
  constructor
  · refine (buy_quantity_floor [("AAPL", ⟨1000, 2⟩)]
      ⟨[⟨"AvailableFunds", "USD", 5000⟩], [], fun _ => ⟨333, 0, 0⟩⟩ "AAPL" ⟨1000, 2⟩
      (by simp [getConfig]) (by norm_num) (by norm_num [buyPrice])).1 ⟨"BUY", 3, 333⟩ ?_
    rw [handle_buy_submits _ _ _ ⟨1000, 2⟩ (by simp [getConfig]) (by norm_num [availableFunds])
          (by norm_num [buyPrice]) (by norm_num [pyint, buyPrice])]
    norm_num [pyint, buyPrice]
  · exact (buy_quantity_floor [("AAPL", ⟨100, 2⟩)]
      ⟨[⟨"AvailableFunds", "USD", 5000⟩], [], fun _ => ⟨150, 0, 0⟩⟩ "AAPL" ⟨100, 2⟩
      (by simp [getConfig]) (by norm_num) (by norm_num [buyPrice])).2 (by norm_num [buyPrice])

/-- Claim C5: for a configured symbol with positive order size, when the
broker-reported available USD funds are strictly below the order size the buy
path submits no order. -/
theorem buy_insufficient_funds_no_order (configs : List (String × TradingConfig))
    (st : BrokerState) (ticker : String) (cfg : TradingConfig)
    (hc : getConfig configs ticker = some cfg)
    (hsz : 0 < cfg.order_size)
    (hlt : availableFunds st.accountValues < cfg.order_size) :
    handle_buy configs st ticker = .ok none :=
  handle_buy_insufficient configs st ticker cfg hc hlt

/-- Claim C5, witness: available funds 500 against order size 1000 produce no
order. -/
theorem buy_insufficient_funds_no_order_witness :
    handle_buy [("AAPL", ⟨1000, 2⟩)]
        ⟨[⟨"AvailableFunds", "USD", 500⟩], [], fun _ => ⟨100, 0, 0⟩⟩ "AAPL"
      = .ok none :=
  buy_insufficient_funds_no_order _ _ _ ⟨1000, 2⟩ (by simp [getConfig]) (by norm_num)
    (by norm_num [availableFunds])

/-- Claim C6: for a symbol with no entry in the configuration store, the buy
path and the sell path both place no order, and the webhook dispatcher still
returns the fixed `processed` acknowledgment for every action. -/
theorem no_config_no_op (configs : List (String × TradingConfig)) (st : BrokerState)
    (rawTicker : String)
    (hc : getConfig configs (pyUpper rawTicker) = none) :
    handle_buy configs st (pyUpper rawTicker) = .ok none ∧
    handle_sell configs st (pyUpper rawTicker) = .ok none ∧
    ∀ rawAction, webhook configs st rawTicker rawAction = .ok (none, "processed") := by
  refine ⟨handle_buy_no_config _ _ _ hc, handle_sell_no_config _ _ _ hc, ?_⟩
  intro a
  by_cases ha : pyUpper a = "BUY"
  · rw [webhook_buy_route configs st rawTicker a ha, handle_buy_no_config _ _ _ hc]; rfl
  · by_cases hs : pyUpper a = "SELL"
    · rw [webhook_sell_route configs st rawTicker a hs, handle_sell_no_config _ _ _ hc]; rfl
    · exact webhook_unknown_route configs st rawTicker a ha hs

/-- Claim C6, witness: with an empty store, a signal for `MSFT` is acknowledged
with `processed`, no order and no error. -/
theorem no_config_no_op_witness :
    webhook [] ⟨[], [], fun _ => ⟨0, 0, 0⟩⟩ "MSFT" "HOLD" = .ok (none, "processed") :=
  (no_config_no_op [] ⟨[], [], fun _ => ⟨0, 0, 0⟩⟩ "MSFT" (by simp [getConfig])).2.2 "HOLD"

/-- Claim C7: for a configured symbol with an open position of positive
quantity and nonzero cost basis whose unrealized-profit percentage meets the
threshold, `handle_sell` submits a sell order for the entire position quantity
at a limit price equal to the position's reported market price. -/
theorem sell_meets_threshold_full_position (configs : List (String × TradingConfig))
    (st : BrokerState) (ticker : String) (cfg : TradingConfig) (p : Position)
    (hc : getConfig configs ticker = some cfg)
    (hp : findPosition st.positions ticker = some p)
    (hcost : p.averageCost ≠ 0)
    (hth : cfg.min_profit ≤
        (p.marketPrice - p.averageCost) * p.position / (p.averageCost * p.position) * 100) :
    handle_sell configs st ticker = .ok (some ⟨"SELL", p.position, p.marketPrice⟩) := by
  have hpos := findPosition_pos st.positions ticker p hp
  exact handle_sell_submits configs st ticker cfg p hc hp
    (mul_ne_zero hcost hpos.ne') (not_lt.mpr hth)

/-- Claim C7, witness: position quantity 10, average cost 100, market price
103 and `min_profit = 2.5` give `pnl_pct = 3 ≥ 2.5` and a sell order for all
10 shares at price 103. -/
theorem sell_meets_threshold_full_position_witness :
    ((103 : ℚ) - 100) * 10 / ((100 : ℚ) * 10) * 100 = 3 ∧
    handle_sell [("AAPL", ⟨1000, 5/2⟩)]
        ⟨[], [⟨"AAPL", 10, 100, 103⟩], fun _ => ⟨0, 0, 0⟩⟩ "AAPL"
      = .ok (some ⟨"SELL", 10, 103⟩) :=
  ⟨by norm_num,
   sell_meets_threshold_full_position _ _ _ ⟨1000, 5/2⟩ ⟨"AAPL", 10, 100, 103⟩
     (by simp [getConfig]) (by decide) (by norm_num) (by norm_num)⟩

/-- Claim C8, counterexample: an order-size message of `-5`, which Python
`float()` parses although it is not a positive number, is accepted — the
session advances, records `order_size = -5`, and on completion writes a
configuration with a non-positive order size into the store; this contradicts
the claim that an order-size input is accepted only if it parses as a positive
finite number. -/
theorem order_size_validation_counterexample :
    runConversation ⟨.ORDER_SIZE, ⟨some "AAPL", none⟩, []⟩
        [.text "-5" (some (-5)), .text "3" (some 3)]
      = .ok ⟨.END, ⟨some "AAPL", some (-5)⟩, [("AAPL", ⟨-5, 3⟩)]⟩ ∧
    ¬ (0 < (-5 : ℚ)) := by
  constructor
  · decide
  · norm_num

/-- Claim C8, amended: in one dialogue step, the configuration store changes
only when the final (profit) step completes successfully and the session
ends; `/cancel` never changes the store; an input that fails to parse as a
float re-prompts the same step and leaves the whole state unchanged.  However
the order-size step accepts any value `float()` parses: positivity and
finiteness are not checked (see the counterexample). -/
theorem config_session_step_amended (st : BotState) (e : Event) (st2 : BotState)
    (h : conversationStep st e = .ok st2) :
    (st2.configs ≠ st.configs → st.conv = .PROFIT_PCT ∧ st2.conv = .END) ∧
    (e = .cancel → st2.configs = st.configs) ∧
    (∀ msg, e = .text msg none →
        (st.conv = .ORDER_SIZE ∨ st.conv = .PROFIT_PCT) → st2 = st) := by
  obtain ⟨conv, ud, cfgs⟩ := st
  cases e with
  | cancel =>
    simp only [conversationStep, Except.ok.injEq] at h
    subst h
    refine ⟨?_, ?_, ?_⟩
    · intro hne; exact absurd rfl hne
    · intro _; rfl
    · intro m hm hor; exact nomatch hm
  | text msg parsed =>
    cases conv with
    | TICKER =>
      simp only [conversationStep, ticker_received, Except.ok.injEq] at h
      subst h
      refine ⟨?_, ?_, ?_⟩
      · intro hne; exact absurd rfl hne
      · intro hc; exact nomatch hc
      · intro m hm hor; rcases hor with h1 | h1 <;> exact nomatch h1
    | ORDER_SIZE =>
      cases parsed with
      | none =>
        simp only [conversationStep, order_size_received, Except.ok.injEq] at h
        subst h
        refine ⟨?_, ?_, ?_⟩
        · intro hne; exact absurd rfl hne
        · intro hc; exact nomatch hc
        · intro m hm hor; rfl
      | some q =>
        simp only [conversationStep, order_size_received, Except.ok.injEq] at h
        subst h
        refine ⟨?_, ?_, ?_⟩
        · intro hne; exact absurd rfl hne
        · intro hc; exact nomatch hc
        · intro m hm hor; simp at hm
    | PROFIT_PCT =>
      cases parsed with
      | none =>
        simp only [conversationStep, profit_received, Except.ok.injEq] at h
        subst h
        refine ⟨?_, ?_, ?_⟩
        · intro hne; exact absurd rfl hne
        · intro hc; exact nomatch hc
        · intro m hm hor; rfl
      | some q =>
        obtain ⟨tk, sz⟩ := ud
        cases tk with
        | none =>
          simp only [conversationStep, profit_received] at h
          exact Except.noConfusion h
        | some t =>
          cases sz with
          | none =>
            simp only [conversationStep, profit_received] at h
            exact Except.noConfusion h
          | some s =>
            simp only [conversationStep, profit_received, Except.ok.injEq] at h
            subst h
            refine ⟨?_, ?_, ?_⟩
            · intro _; exact ⟨rfl, rfl⟩
            · intro hc; exact nomatch hc
            · intro m hm hor; simp at hm
    | END =>
      simp only [conversationStep, Except.ok.injEq] at h
      subst h
      refine ⟨?_, ?_, ?_⟩
      · intro hne; exact absurd rfl hne
      · intro hc; exact nomatch hc
      · intro m hm hor; rcases hor with h1 | h1 <;> exact nomatch h1

/-- Claim C8, witness: `/cancel` in the order-size step leaves the store
unchanged. -/
theorem config_session_step_amended_witness :
    (⟨.END, ⟨some "AAPL", none⟩, []⟩ : BotState).configs
      = (⟨.ORDER_SIZE, ⟨some "AAPL", none⟩, []⟩ : BotState).configs :=
  (config_session_step_amended ⟨.ORDER_SIZE, ⟨some "AAPL", none⟩, []⟩ .cancel
      ⟨.END, ⟨some "AAPL", none⟩, []⟩ (by decide)).2.1 rfl

/-- Claim C10: when the broker-reported account values hold no entry tagged
`AvailableFunds` in currency `USD`, the buy path treats the available funds as
`0`, and for any configured symbol with positive order size it submits no
order. -/
theorem missing_funds_entry_defaults_zero (configs : List (String × TradingConfig))
    (st : BrokerState) (ticker : String) (cfg : TradingConfig)
    (hnone : st.accountValues.find?
        (fun v => v.tag == "AvailableFunds" && v.currency == "USD") = none)
    (hc : getConfig configs ticker = some cfg)
    (hsz : 0 < cfg.order_size) :
    availableFunds st.accountValues = 0 ∧ handle_buy configs st ticker = .ok none := by
  have h0 : availableFunds st.accountValues = 0 := by
    unfold availableFunds; rw [hnone]
  exact ⟨h0, handle_buy_insufficient configs st ticker cfg hc (h0 ▸ hsz)⟩

/-- Claim C10, witness: an account list holding only a `NetLiquidation` entry
defaults the available funds to `0` and no buy order is submitted. -/
theorem missing_funds_entry_defaults_zero_witness :
    availableFunds [⟨"NetLiquidation", "USD", 5000⟩] = 0 ∧
    handle_buy [("AAPL", ⟨1000, 2⟩)]
        ⟨[⟨"NetLiquidation", "USD", 5000⟩], [], fun _ => ⟨100, 0, 0⟩⟩ "AAPL"
      = .ok none :=
  missing_funds_entry_defaults_zero [("AAPL", ⟨1000, 2⟩)]
    ⟨[⟨"NetLiquidation", "USD", 5000⟩], [], fun _ => ⟨100, 0, 0⟩⟩ "AAPL" ⟨1000, 2⟩
    (by decide) (by simp [getConfig]) (by norm_num)


end IbkrBot
